import Mathlib

/-!
Verification development for the InVesta repository.

The definitions below are a shallow embedding of the Python sources:
`finance_logic.py` (portfolio aggregation and metrics), `portfolio.py`
(the legacy analyzer), `ticker_data.py` (ticker search with local
fallback) and `ticker_sync.py` (directory sync, option formatting and
symbol extraction).  Shares, prices and amounts are modelled as exact
rationals; Python strings are Lean `String`s and the handful of string
operations the code uses (`strip`, `upper`, `split`, `startswith`,
substring `in`, `sorted`) are spelled out below over `List Char` so that
every definition is executable.
-/

namespace InVesta

/-! ## String helpers (models of the Python string operations used) -/

/-- Python `str.strip()`: drop whitespace from both ends (right strip,
then left strip; the order is immaterial). -/
def pyStripChars (cs : List Char) : List Char :=
  ((cs.reverse.dropWhile Char.isWhitespace).reverse).dropWhile Char.isWhitespace

/-- Python `str.strip()` on a `String`. -/
def pyStrip (s : String) : String :=
  String.mk (pyStripChars s.data)

/-- Python `str.upper()` (the data involved is ASCII). -/
def pyUpper (s : String) : String :=
  String.mk (s.data.map Char.toUpper)

/-- Python `pat in s` over char lists: `pat` occurs as a contiguous
substring of the second argument. -/
def listContainsSub (pat : List Char) : List Char → Bool
  | [] => pat.isEmpty
  | c :: cs => pat.isPrefixOf (c :: cs) || listContainsSub pat cs

/-- Python `pat in s` on strings. -/
def containsSub (pat s : String) : Bool :=
  listContainsSub pat.data s.data

/-- Python `s.startswith(pat)`. -/
def strStartsWith (s pat : String) : Bool :=
  pat.data.isPrefixOf s.data

/-- Lexicographic comparison of char lists by code point, as Python
compares strings. -/
def listCharLe : List Char → List Char → Bool
  | [], _ => true
  | _ :: _, [] => false
  | a :: as, b :: bs => if a = b then listCharLe as bs else decide (a.toNat < b.toNat)

/-- String order used by Python `sorted` and by SQLite `ORDER BY` on the
text primary key. -/
def strLe (a b : String) : Bool :=
  listCharLe a.data b.data

/-- Insert into a sorted list, keeping it sorted w.r.t. `le`. -/
def insertSortedBy (le : α → α → Bool) (a : α) : List α → List α
  | [] => [a]
  | b :: bs => if le a b then a :: b :: bs else b :: insertSortedBy le a bs

/-- Insertion sort; models Python `sorted` / SQLite `ORDER BY` (the keys
involved are pairwise distinct, so stability is immaterial). -/
def sortListBy (le : α → α → Bool) : List α → List α
  | [] => []
  | a :: as => insertSortedBy le a (sortListBy le as)

/-- Python `content.split(c)` for a single-character separator. -/
def splitOnChar (c : Char) : List Char → List (List Char)
  | [] => [[]]
  | a :: as =>
    let r := splitOnChar c as
    if a = c then [] :: r
    else (a :: r.headD []) :: r.tail

/-! ## Ticker directory model (`ticker_sync.py`) -/

/-- A row of the `tickers` table (`ticker_sync.py`, `_init_db`):
symbol is the primary key; `is_etf` is stored as 0/1. -/
structure TickerRec where
  symbol : String
  name : String
  is_etf : Bool
  exchange : String
deriving Repr, DecidableEq

/-- The display string built by `TickerSyncManager.get_ticker_options`:
`f"{symbol} | {name} ({ticker_type})"` with type `ETF` or `Stock`. -/
def optionDisplay (r : TickerRec) : String :=
  r.symbol ++ " | " ++ r.name ++ " (" ++ (if r.is_etf then "ETF" else "Stock") ++ ")"

/-- `symbol LIKE 'Q%'` for the uppercased query `q` (SQLite `LIKE` is
case-insensitive on ASCII). -/
def symbolPrefixMatch (r : TickerRec) (q : String) : Bool :=
  strStartsWith (pyUpper r.symbol) q

/-- `name LIKE '%Q%'` for the uppercased query `q`. -/
def nameContainsMatch (r : TickerRec) (q : String) : Bool :=
  containsSub q (pyUpper r.name)

/-- `TickerSyncManager.get_ticker_options` (ticker_sync.py:345-400): for a
non-empty query it runs `WHERE symbol LIKE 'Q%' UNION ALL (... WHERE symbol
NOT LIKE 'Q%' AND name LIKE '%Q%') ORDER BY symbol`; per SQLite semantics
the trailing `ORDER BY` applies to the whole compound select, so the
concatenation of the two tiers is sorted by symbol as one list.  An empty
query returns all rows ordered by symbol.  The database rows are the
`dir` argument. -/
def get_ticker_options (dir : List TickerRec) (search_query : String) : List String :=
  let rows :=
    if search_query ≠ "" then
      let q := pyUpper (pyStrip search_query)
      let tierA := dir.filter (fun r => symbolPrefixMatch r q)
      let tierB := dir.filter (fun r => !symbolPrefixMatch r q && nameContainsMatch r q)
      sortListBy (fun a b => strLe a.symbol b.symbol) (tierA ++ tierB)
    else
      sortListBy (fun a b => strLe a.symbol b.symbol) dir
  rows.map optionDisplay

/-- `TickerSyncManager.get_ticker_from_option` (ticker_sync.py:402-419):
`None` when the option is empty or has no `'|'`; otherwise
`option.split('|')[0].strip()` (the stripped prefix before the first
pipe), and `None` again when that is empty. -/
def get_ticker_from_option (option : String) : Option String :=
  if '|' ∈ option.data then
    if pyStripChars (option.data.takeWhile (fun c => decide (c ≠ '|'))) = [] then none
    else some (String.mk (pyStripChars (option.data.takeWhile (fun c => decide (c ≠ '|')))))
  else
    none

/-! ## Ticker search (`ticker_data.py`) -/

/-- The embedded fallback ticker list `US_STOCK_TICKERS`
(ticker_data.py:20-39). -/
def US_STOCK_TICKERS : List String := [
  "AAL", "AAPL", "ABBV", "ACN", "ADBE", "ADDYY", "AEP", "AIG", "ALL", "AMD",
  "AMGN", "AMZN", "APD", "AXP", "BAC", "BA", "BLK", "BRK.A", "BRK.B", "BWA",
  "C", "CAL", "CAT", "CBOE", "CARR", "CHD", "CHTR", "CMCSA", "COP", "COST",
  "CPRI", "CRM", "CRSP", "CSCO", "CTSH", "CVX", "DAL", "DASH", "DD", "DIS",
  "DOW", "DRUKF", "DUK", "EDIT", "EBAY", "EQIX", "EQR", "ETN", "EXAS", "EXC",
  "EXPD", "F", "FCX", "FDX", "FITB", "FOXA", "FOX", "FRC", "GE", "GELYY",
  "GHC", "GILD", "GM", "GS", "GTLB", "GTLS", "GOOG", "GOOGL", "HD", "HI",
  "HMC", "HON", "HRSTY", "HYMTF", "IBM", "ILMN", "IMAX", "INSW", "INTC",
  "INTU", "IONM", "IP", "ITW", "JNJ", "JPM", "KKR", "KMB", "KO", "LIN",
  "LIONSB", "LLY", "LMT", "LPL", "LOW", "LRCX", "LUV", "LYB", "LYFT", "MA",
  "MAC", "MCD", "MDLZ", "META", "MLL", "MONDELEZ", "MOS", "MRVL", "MU", "MS",
  "NEE", "NEM", "NFLX", "NKE", "NSANY", "NUVA", "ORCL", "O", "PEP", "PFE",
  "PG", "PINS", "PKG", "PLD", "PNW", "PPL", "PRU", "PSA", "PSX", "PYPL",
  "QCOM", "QSR", "RBLX", "REGN", "RL", "RLOG", "ROP", "RTX", "SAP", "SBUX",
  "SCHW", "SE", "SHCO", "SHO", "SIVB", "SKX", "SLB", "SNPS", "SO", "SPOT",
  "SQ", "STAG", "STLD", "SW", "T", "TMUS", "TMO", "TT", "UGI", "UL", "UNH",
  "UPS", "UAL", "VLC", "VLO", "VOD", "VRTX", "VZ", "WDAY", "WELL", "WFC",
  "WLK", "WMT", "WIRE", "WRK", "XYLEM", "XOM", "YUM", "VWAGY"]

/-- `DEFAULT_TICKER` (ticker_data.py:41). -/
def DEFAULT_TICKER : String := "AAPL"

/-- `search_tickers` (ticker_data.py:60-95).  An empty query returns the
default ticker; a populated directory (`ticker_count > 0`) is queried
through `get_ticker_options` / `get_ticker_from_option` and the extracted
symbols, when any, are truncated to `limit`; otherwise the embedded list
is searched by prefix, then by substring, and the default ticker is
returned when nothing matches. -/
def search_tickers (dir : List TickerRec) (query : String) (limit : Nat) : List String :=
  if query = "" then
    [DEFAULT_TICKER]
  else
    let options := get_ticker_options dir query
    let tickers := options.filterMap get_ticker_from_option
    if 0 < dir.length ∧ tickers ≠ [] then
      tickers.take limit
    else
      let query_upper := pyStrip (pyUpper query)
      let startsWithMatches := sortListBy strLe (US_STOCK_TICKERS.filter (fun t => strStartsWith t query_upper))
      let matchList :=
        if startsWithMatches = [] then
          sortListBy strLe (US_STOCK_TICKERS.filter (fun t => containsSub query_upper t))
        else startsWithMatches
      if matchList ≠ [] then matchList.take limit else [DEFAULT_TICKER]

/-! ## Portfolio aggregation (`finance_logic.py`) -/

/-- `TRADE_TYPE_BUY` (config.py). -/
def TRADE_TYPE_BUY : String := "Buy"

/-- `TRADE_TYPE_SELL` (config.py). -/
def TRADE_TYPE_SELL : String := "Sell"

/-- `TRANSACTION_TYPE_INCOME` (config.py). -/
def TRANSACTION_TYPE_INCOME : String := "Income"

/-- `TRANSACTION_TYPE_EXPENSE` (config.py). -/
def TRANSACTION_TYPE_EXPENSE : String := "Expense"

/-- A row of the investments dataframe: shares and price are exact
rationals. -/
structure Trade where
  ticker : String
  trade_type : String
  shares : ℚ
  price : ℚ
deriving Repr, DecidableEq

/-- A row of the cash-transactions dataframe. -/
structure Txn where
  type : String
  amount : ℚ
deriving Repr, DecidableEq

/-- `buys = group[group["trade_type"] == TRADE_TYPE_BUY]`. -/
def buysOf (group : List Trade) : List Trade :=
  group.filter (fun t => t.trade_type == TRADE_TYPE_BUY)

/-- `sells = group[group["trade_type"] == TRADE_TYPE_SELL]`. -/
def sellsOf (group : List Trade) : List Trade :=
  group.filter (fun t => t.trade_type == TRADE_TYPE_SELL)

/-- `buy_shares = buys["shares"].sum()` (0 when there are no buys). -/
def buy_shares (group : List Trade) : ℚ :=
  ((buysOf group).map (·.shares)).sum

/-- `buy_value = (buys["shares"] * buys["price"]).sum()`. -/
def buy_value (group : List Trade) : ℚ :=
  ((buysOf group).map (fun t => t.shares * t.price)).sum

/-- `sell_shares = sells["shares"].sum()`. -/
def sell_shares (group : List Trade) : ℚ :=
  ((sellsOf group).map (·.shares)).sum

/-- `sell_value = (sells["shares"] * sells["price"]).sum()`. -/
def sell_value (group : List Trade) : ℚ :=
  ((sellsOf group).map (fun t => t.shares * t.price)).sum

/-- Python `int()` applied to an exact rational: truncation toward
zero. -/
def pyInt (q : ℚ) : ℤ :=
  if 0 ≤ q then ⌊q⌋ else ⌈q⌉

/-- The `Status` column: `"🔴 Closed" if net_shares == 0 else "🟢 Open"`. -/
inductive PosStatus where
  | closed
  | opened
deriving Repr, DecidableEq

/-- One row of the summary dataframe built by
`PortfolioCalculator.aggregate_portfolio` (finance_logic.py:87-100). -/
structure Summary where
  ticker : String
  totalShares : ℤ
  soldShares : ℤ
  netShares : ℤ
  avgCost : ℚ
  currentPrice : ℚ
  currentValue : ℚ
  unrealizedPnl : ℚ
  unrealizedPct : ℚ
  realizedPnl : ℚ
  totalPnl : ℚ
  status : PosStatus
deriving Repr, DecidableEq

/-- The loop body of `PortfolioCalculator.aggregate_portfolio`
(finance_logic.py:53-100) for one ticker's trade group.  The branch on
`net_shares == 0 and buy_shares > 0` overwrites `realized_pnl` and zeroes
the unrealized quantities; otherwise the remaining position is valued at
`current_price`, which falls back to `avg_cost` when `ticker_prices` has
no entry for the ticker. -/
def aggregateTicker (ticker : String) (group : List Trade)
    (ticker_prices : String → Option ℚ) : Summary :=
  let bs := buy_shares group
  let bv := buy_value group
  let ss := sell_shares group
  let sv := sell_value group
  let net_shares := bs - ss
  let avg_cost := if 0 < bs then bv / bs else 0
  let current_price := (ticker_prices ticker).getD avg_cost
  let isClosed := net_shares = 0 ∧ 0 < bs
  let realized_pnl :=
    if isClosed then sv - bv else if 0 < ss then sv - ss * avg_cost else 0
  let current_value := if isClosed then 0 else net_shares * current_price
  let unrealized_pnl :=
    if isClosed then 0 else net_shares * current_price - net_shares * avg_cost
  let unrealized_pct :=
    if isClosed then 0
    else if 0 < net_shares * avg_cost then
      (net_shares * current_price - net_shares * avg_cost) / (net_shares * avg_cost) * 100
    else 0
  { ticker := ticker
    totalShares := pyInt bs
    soldShares := pyInt ss
    netShares := pyInt net_shares
    avgCost := avg_cost
    currentPrice := current_price
    currentValue := current_value
    unrealizedPnl := unrealized_pnl
    unrealizedPct := unrealized_pct
    realizedPnl := realized_pnl
    totalPnl := unrealized_pnl + realized_pnl
    status := if net_shares = 0 then PosStatus.closed else PosStatus.opened }

/-- The distinct tickers of the investments dataframe in ascending order,
as produced by `groupby("ticker")`. -/
def tickerKeys (investments : List Trade) : List String :=
  sortListBy strLe ((investments.map (·.ticker)).dedup)

/-- `PortfolioCalculator.aggregate_portfolio` (finance_logic.py:20-108):
one summary row per ticker, then sorted by current value descending. -/
def aggregate_portfolio (investments : List Trade)
    (ticker_prices : String → Option ℚ) : List Summary :=
  let summary := (tickerKeys investments).map
    (fun tk => aggregateTicker tk (investments.filter (fun t => t.ticker == tk)) ticker_prices)
  sortListBy (fun a b => decide (b.currentValue ≤ a.currentValue)) summary

/-- The metrics dictionary returned by
`PortfolioCalculator.compute_metrics` (finance_logic.py:110-164). -/
structure Metrics where
  total_assets : ℚ
  cash_balance : ℚ
  cost_basis : ℚ
  total_unrealized_pnl : ℚ
  total_realized_pnl : ℚ
  total_pnl : ℚ
  return_pct : ℚ
  portfolio_value : ℚ
deriving Repr, DecidableEq

/-- `PortfolioCalculator.compute_metrics` (finance_logic.py:110-164).
The cash balance is `transactions_df["amount"].sum()` — the plain sum of
every transaction amount (the empty-frame guards coincide with the sum
over an empty list).  The unused `ticker_prices` parameter is omitted. -/
def compute_metrics (transactions : List Txn) (investments : List Trade)
    (portfolio : List Summary) : Metrics :=
  let total_assets := (portfolio.map (·.currentValue)).sum
  let cash_balance := (transactions.map (·.amount)).sum
  let total_unrealized_pnl := (portfolio.map (·.unrealizedPnl)).sum
  let total_realized_pnl := (portfolio.map (·.realizedPnl)).sum
  let total_pnl := total_unrealized_pnl + total_realized_pnl
  let cost_basis := buy_value investments
  let return_pct := if 0 < cost_basis then total_pnl / cost_basis * 100 else 0
  { total_assets := total_assets
    cash_balance := cash_balance
    cost_basis := cost_basis
    total_unrealized_pnl := total_unrealized_pnl
    total_realized_pnl := total_realized_pnl
    total_pnl := total_pnl
    return_pct := return_pct
    portfolio_value := total_assets + cash_balance }

/-- The cash balance computed by the legacy
`PortfolioAnalyzer.compute_metrics` (portfolio.py:116-132):
`total_income - total_expense - invested_principal + cash_from_sales`
(the returned dict rounds it to two decimals for display). -/
def analyzer_cash_balance (transactions : List Txn) (investments : List Trade) : ℚ :=
  let total_income :=
    ((transactions.filter (fun t => t.type == TRANSACTION_TYPE_INCOME)).map (·.amount)).sum
  let total_expense :=
    ((transactions.filter (fun t => t.type == TRANSACTION_TYPE_EXPENSE)).map (·.amount)).sum
  let invested_principal := buy_value investments
  let cash_from_sales := sell_value investments
  total_income - total_expense - invested_principal + cash_from_sales

/-- The cash-balance derivation stated by the specification, written from
its words for comparison with the code: income transaction amounts add,
expense transaction amounts subtract, buy trade value subtracts, sell
trade value adds. -/
def claimed_cash_balance (transactions : List Txn) (investments : List Trade) : ℚ :=
  ((transactions.filter (fun t => t.type == "Income")).map (·.amount)).sum
    - ((transactions.filter (fun t => t.type == "Expense")).map (·.amount)).sum
    - ((investments.filter (fun t => t.trade_type == "Buy")).map (fun t => t.shares * t.price)).sum
    + ((investments.filter (fun t => t.trade_type == "Sell")).map (fun t => t.shares * t.price)).sum

/-! ## Directory synchronization (`ticker_sync.py`) -/

/-- One line of a Nasdaq listing file, as handled by the body of the loop
in `TickerSyncManager._parse_nasdaq_file` (ticker_sync.py:206-240):
blank lines, `File`-prefixed lines, lines with fewer than three
pipe-separated fields and test issues are skipped; the ETF flag sits in
column 4 (nasdaqlisted) or column 5 (otherlisted). -/
def parseLine (is_nasdaqlisted : Bool) (line : List Char) : Option TickerRec :=
  if pyStripChars line = [] then none
  else if "File".data.isPrefixOf line then none
  else
    let parts := splitOnChar '|' line
    if parts.length < 3 then none
    else
      let symbol := pyStripChars (parts.getD 0 [])
      let name := pyStripChars (parts.getD 1 [])
      if listContainsSub "Test Issue".data name then none
      else
        let is_etf :=
          if is_nasdaqlisted then
            decide (4 < parts.length) &&
              ((pyStripChars (parts.getD 4 [])).map Char.toUpper == ['Y'])
          else
            decide (5 < parts.length) &&
              ((pyStripChars (parts.getD 5 [])).map Char.toUpper == ['Y'])
        some ⟨String.mk symbol, String.mk name, is_etf,
              if is_nasdaqlisted then "NASDAQ" else "OTHER"⟩

/-- `TickerSyncManager._parse_nasdaq_file` (ticker_sync.py:186-242): split
on newlines, keep `lines[1:-1]` when there are more than two lines
(header and trailing summary line skipped), and parse each data line. -/
def parse_nasdaq_file (content : String) (is_nasdaqlisted : Bool) : List TickerRec :=
  let lines := splitOnChar '\n' content.data
  let data_lines := if 2 < lines.length then (lines.drop 1).dropLast else []
  data_lines.filterMap (parseLine is_nasdaqlisted)

/-- `INSERT OR REPLACE` of one row keyed on the `symbol` primary key. -/
def upsertTicker (dir : List TickerRec) (t : TickerRec) : List TickerRec :=
  if dir.any (fun r => r.symbol == t.symbol) then
    dir.map (fun r => if r.symbol == t.symbol then t else r)
  else
    dir ++ [t]

/-- `TickerSyncManager._insert_tickers` (ticker_sync.py:244-300): an empty
list inserts nothing; otherwise each row is upserted and counted, and a
row whose insert raises is skipped (`insert_ok` models which inserts
succeed).  Returns the new table contents and the inserted count. -/
def insert_tickers (dir : List TickerRec) (tickers : List TickerRec)
    (insert_ok : TickerRec → Bool) : List TickerRec × Nat :=
  if tickers = [] then (dir, 0)
  else
    tickers.foldl
      (fun acc t => if insert_ok t then (upsertTicker acc.1 t, acc.2 + 1) else acc)
      (dir, 0)

/-- The persistent state touched by a sync: the `tickers` table and the
`last_updated_at` watermark of `sync_log`, with dates as plain
numbers. -/
structure SyncState where
  tickers : List TickerRec
  lastSync : Option Nat
deriving Repr, DecidableEq

/-- Python truthiness of a fetch result: `None` and the empty string are
falsy. -/
def contentFalsy : Option String → Bool
  | none => true
  | some s => s = ""

/-- `TickerSyncManager.sync_if_needed` (ticker_sync.py:302-343).  The two
fetch results are inputs (`none` = fetch raised); a falsy result aborts
with `False` before any insert.  When both files arrive, the parsed rows
are inserted, the watermark is set to today, and the call returns `True`
regardless of how many rows were parsed or inserted. -/
def sync_if_needed (st : SyncState) (today : Nat)
    (nasdaq_content other_content : Option String)
    (insert_ok : TickerRec → Bool) : SyncState × Bool :=
  if st.lastSync = some today then (st, false)
  else if contentFalsy nasdaq_content then (st, false)
  else if contentFalsy other_content then (st, false)
  else
    let nasdaq_tickers := parse_nasdaq_file (nasdaq_content.getD "") true
    let other_tickers := parse_nasdaq_file (other_content.getD "") false
    let all_tickers := nasdaq_tickers ++ other_tickers
    let inserted := insert_tickers st.tickers all_tickers insert_ok
    (⟨inserted.1, some today⟩, true)

/-! ## Helper lemmas -/

theorem insertSortedBy_ne_nil (le : α → α → Bool) (a : α) (l : List α) :
    insertSortedBy le a l ≠ [] := by
  cases l with
  | nil => simp [insertSortedBy]
  | cons b bs =>
    unfold insertSortedBy
    split <;> simp

theorem sortListBy_eq_nil_iff (le : α → α → Bool) (l : List α) :
    sortListBy le l = [] ↔ l = [] := by
  cases l with
  | nil => simp [sortListBy]
  | cons a as =>
    simp only [sortListBy]
    constructor
    · intro h
      exact absurd h (insertSortedBy_ne_nil le a (sortListBy le as))
    · intro h
      exact absurd h (by simp)

/-! ## Claim C1 -/

/-- Claim C1 (code_bug evaluation): with the directory holding the
entries `A / AA HOLDINGS` and `AAPL / APPLE INC`, the query `"AA"`
returns the name-containment match `A` strictly before the prefix match
`AAPL`, because SQLite applies the trailing `ORDER BY symbol` to the
whole `UNION ALL` compound, sorting both tiers together; the claim (and
the code's own comments) require every prefix match first. -/
theorem C1_tier_order_code_eval :
    search_tickers
        [⟨"A", "AA HOLDINGS", false, "NASDAQ"⟩, ⟨"AAPL", "APPLE INC", false, "NASDAQ"⟩]
        "AA" 10 = ["A", "AAPL"] ∧
    get_ticker_options
        [⟨"A", "AA HOLDINGS", false, "NASDAQ"⟩, ⟨"AAPL", "APPLE INC", false, "NASDAQ"⟩]
        "AA" = ["A | AA HOLDINGS (Stock)", "AAPL | APPLE INC (Stock)"] ∧
    symbolPrefixMatch ⟨"A", "AA HOLDINGS", false, "NASDAQ"⟩ "AA" = false ∧
    symbolPrefixMatch ⟨"AAPL", "APPLE INC", false, "NASDAQ"⟩ "AA" = true := by
  refine ⟨?_, ?_, ?_, ?_⟩ <;> decide

/-! ## Claim C7 -/

/-- Claim C7: if fetching either listing file fails, `sync_if_needed`
returns `False` and leaves the directory table and the watermark exactly
as they were — no upsert happens. -/
theorem C7_fetch_failure_aborts (st : SyncState) (today : Nat)
    (fN fO : Option String) (ok : TickerRec → Bool)
    (h : fN = none ∨ fO = none) :
    sync_if_needed st today fN fO ok = (st, false) := by
  rcases h with rfl | rfl
  · by_cases h1 : st.lastSync = some today <;>
      simp [sync_if_needed, h1, contentFalsy]
  · by_cases h1 : st.lastSync = some today
    · simp [sync_if_needed, h1]
    · by_cases h2 : contentFalsy fN = true
      · simp [sync_if_needed, h1, h2]
      · simp [sync_if_needed, h1, h2, contentFalsy]

/-- Witness for C7 at a concrete input: the first fetch fails, the state
is unchanged and the call reports failure. -/
theorem C7_fetch_failure_aborts_witness :
    sync_if_needed ⟨[], none⟩ 0 none (some "x") (fun _ => true) = (⟨[], none⟩, false) :=
  C7_fetch_failure_aborts ⟨[], none⟩ 0 none (some "x") (fun _ => true) (Or.inl rfl)

/-! ## Claim C9 -/

/-- Claim C9: whenever both listing-file fetches return (truthy) content
and no sync happened today, `sync_if_needed` records today as the new
watermark and returns `True`, for every possible parse outcome and every
pattern of per-row insert failures — including zero parsed entries and
zero successful inserts. -/
theorem C9_watermark_set_unconditionally (st : SyncState) (today : Nat)
    (fN fO : Option String) (ok : TickerRec → Bool)
    (h1 : contentFalsy fN = false) (h2 : contentFalsy fO = false)
    (h3 : ¬ st.lastSync = some today) :
    (sync_if_needed st today fN fO ok).1.lastSync = some today ∧
    (sync_if_needed st today fN fO ok).2 = true := by
  simp [sync_if_needed, h1, h2, h3]

/-- Witness for C9 at a concrete input: the content `"x"` parses to zero
ticker entries and the insert oracle rejects every row (inserted count
0), yet the watermark becomes today and the call returns `True`. -/
theorem C9_watermark_set_unconditionally_witness :
    parse_nasdaq_file "x" true = [] ∧
    insert_tickers [] (parse_nasdaq_file "x" true ++ parse_nasdaq_file "y" false) (fun _ => false) = ([], 0) ∧
    (sync_if_needed ⟨[], none⟩ 0 (some "x") (some "y") (fun _ => false)).1.lastSync = some 0 ∧
    (sync_if_needed ⟨[], none⟩ 0 (some "x") (some "y") (fun _ => false)).2 = true := by
  refine ⟨by decide, by decide, ?_, ?_⟩
  · exact (C9_watermark_set_unconditionally ⟨[], none⟩ 0 (some "x") (some "y")
      (fun _ => false) (by decide) (by decide) (by decide)).1
  · exact (C9_watermark_set_unconditionally ⟨[], none⟩ 0 (some "x") (some "y")
      (fun _ => false) (by decide) (by decide) (by decide)).2

/-! ## Claim C2 -/

/-- Claim C2: for every trade group with positive bought shares, the
average cost reported by the aggregation is `buy_value / buy_shares` —
the cost-weighted basis of the buy trades only — and appending any list
of sell trades (of any prices) leaves it at that same value, so it is
independent of the sells. -/
theorem C2_avg_cost_from_buys_only (tk : String) (trades extra : List Trade)
    (prices : String → Option ℚ)
    (hb : 0 < buy_shares trades)
    (hx : ∀ e ∈ extra, e.trade_type = TRADE_TYPE_SELL) :
    (aggregateTicker tk (trades ++ extra) prices).avgCost
      = buy_value trades / buy_shares trades := by
  have hfe : extra.filter (fun t => t.trade_type == TRADE_TYPE_BUY) = [] := by
    rw [List.filter_eq_nil_iff]
    intro e he
    simp [hx e he, TRADE_TYPE_BUY, TRADE_TYPE_SELL]
  have hbo : buysOf (trades ++ extra) = buysOf trades := by
    unfold buysOf
    rw [List.filter_append, hfe, List.append_nil]
  have h1 : buy_shares (trades ++ extra) = buy_shares trades := by
    unfold buy_shares; rw [hbo]
  have h2 : buy_value (trades ++ extra) = buy_value trades := by
    unfold buy_value; rw [hbo]
  simp only [aggregateTicker, h1, h2]
  rw [if_pos hb]

/-- Witness for C2: buy 10 @ 100 with a sell 4 @ 150 inside the group
and another sell 2 @ 300 appended; the average cost is still
`1000 / 10 = 100`. -/
theorem C2_avg_cost_from_buys_only_witness :
    0 < buy_shares [⟨"T", "Buy", 10, 100⟩, ⟨"T", "Sell", 4, 150⟩] ∧
    (aggregateTicker "T"
        ([⟨"T", "Buy", 10, 100⟩, ⟨"T", "Sell", 4, 150⟩] ++ [⟨"T", "Sell", 2, 300⟩])
        (fun _ => none)).avgCost
      = buy_value [⟨"T", "Buy", 10, 100⟩, ⟨"T", "Sell", 4, 150⟩]
        / buy_shares [⟨"T", "Buy", 10, 100⟩, ⟨"T", "Sell", 4, 150⟩] ∧
    buy_value [⟨"T", "Buy", 10, 100⟩, ⟨"T", "Sell", 4, 150⟩]
        / buy_shares [⟨"T", "Buy", 10, 100⟩, ⟨"T", "Sell", 4, 150⟩] = 100 := by
  have hb : 0 < buy_shares [⟨"T", "Buy", 10, 100⟩, ⟨"T", "Sell", 4, 150⟩] := by
    norm_num +decide [buy_shares, buysOf, TRADE_TYPE_BUY, List.filter_cons]
  refine ⟨hb, ?_, ?_⟩
  · exact C2_avg_cost_from_buys_only "T" _ _ (fun _ => none) hb
      (by intro e he; simp only [List.mem_singleton] at he; subst he; rfl)
  · norm_num +decide [buy_value, buy_shares, buysOf, TRADE_TYPE_BUY, List.filter_cons]

/-! ## Claim C4 -/

/-- Claim C4: a fully closed group (`buy_shares = sell_shares > 0`)
aggregates to zero net shares, Closed status, zero current value, zero
unrealized P&L, and realized P&L equal to the full round trip
`sell_value − buy_value`. -/
theorem C4_closed_position (tk : String) (g : List Trade)
    (prices : String → Option ℚ)
    (heq : buy_shares g = sell_shares g) (hb : 0 < buy_shares g) :
    (aggregateTicker tk g prices).netShares = 0 ∧
    (aggregateTicker tk g prices).status = PosStatus.closed ∧
    (aggregateTicker tk g prices).currentValue = 0 ∧
    (aggregateTicker tk g prices).unrealizedPnl = 0 ∧
    (aggregateTicker tk g prices).realizedPnl = sell_value g - buy_value g := by
  have hnet : buy_shares g - sell_shares g = 0 := by rw [heq]; ring
  refine ⟨?_, ?_, ?_, ?_, ?_⟩ <;>
    simp [aggregateTicker, hnet, hb, pyInt]

/-- Witness for C4: buy 10 @ 100 then sell 10 @ 150; the position closes
with realized P&L `1500 − 1000 = 500`. -/
theorem C4_closed_position_witness :
    buy_shares [⟨"T", "Buy", 10, 100⟩, ⟨"T", "Sell", 10, 150⟩]
      = sell_shares [⟨"T", "Buy", 10, 100⟩, ⟨"T", "Sell", 10, 150⟩] ∧
    (aggregateTicker "T" [⟨"T", "Buy", 10, 100⟩, ⟨"T", "Sell", 10, 150⟩]
        (fun _ => none)).status = PosStatus.closed ∧
    (aggregateTicker "T" [⟨"T", "Buy", 10, 100⟩, ⟨"T", "Sell", 10, 150⟩]
        (fun _ => none)).realizedPnl = 500 := by
  have heq : buy_shares [⟨"T", "Buy", 10, 100⟩, ⟨"T", "Sell", 10, 150⟩]
      = sell_shares [⟨"T", "Buy", 10, 100⟩, ⟨"T", "Sell", 10, 150⟩] := by
    norm_num +decide [buy_shares, sell_shares, buysOf, sellsOf, TRADE_TYPE_BUY, TRADE_TYPE_SELL,
      List.filter_cons]
  have hb : 0 < buy_shares [⟨"T", "Buy", 10, 100⟩, ⟨"T", "Sell", 10, 150⟩] := by
    norm_num +decide [buy_shares, buysOf, TRADE_TYPE_BUY, List.filter_cons]
  have h := C4_closed_position "T" [⟨"T", "Buy", 10, 100⟩, ⟨"T", "Sell", 10, 150⟩]
    (fun _ => none) heq hb
  refine ⟨heq, h.2.1, ?_⟩
  rw [h.2.2.2.2]
  norm_num +decide [buy_value, sell_value, buysOf, sellsOf, TRADE_TYPE_BUY, TRADE_TYPE_SELL,
    List.filter_cons]

/-! ## Claim C5 -/

/-- Claim C5: a ticker absent from the current-prices mapping is valued
at its average cost, and in particular a single buy of 10 shares at 100
with an empty mapping yields average cost 100, current price 100, current
value 1000 and zero unrealized P&L. -/
theorem C5_price_fallback (tk : String) (g : List Trade)
    (prices : String → Option ℚ) (hp : prices tk = none) :
    (aggregateTicker tk g prices).currentPrice = (aggregateTicker tk g prices).avgCost ∧
    (aggregateTicker "TICK" [⟨"TICK", "Buy", 10, 100⟩] (fun _ => none)).avgCost = 100 ∧
    (aggregateTicker "TICK" [⟨"TICK", "Buy", 10, 100⟩] (fun _ => none)).currentPrice = 100 ∧
    (aggregateTicker "TICK" [⟨"TICK", "Buy", 10, 100⟩] (fun _ => none)).currentValue = 1000 ∧
    (aggregateTicker "TICK" [⟨"TICK", "Buy", 10, 100⟩] (fun _ => none)).unrealizedPnl = 0 := by
  refine ⟨by simp [aggregateTicker, hp], ?_, ?_, ?_, ?_⟩ <;>
    norm_num +decide [aggregateTicker, buy_shares, buy_value, sell_shares, sell_value,
      buysOf, sellsOf, TRADE_TYPE_BUY, TRADE_TYPE_SELL, List.filter_cons]

/-- Witness for C5 at a concrete input: the empty price mapping falls
back to the average cost. -/
theorem C5_price_fallback_witness :
    (aggregateTicker "TICK" [⟨"TICK", "Buy", 10, 100⟩] (fun _ => none)).currentPrice
      = (aggregateTicker "TICK" [⟨"TICK", "Buy", 10, 100⟩] (fun _ => none)).avgCost :=
  (C5_price_fallback "TICK" [⟨"TICK", "Buy", 10, 100⟩] (fun _ => none) rfl).1

/-! ## Claim C3 -/

/-- Claim C3 counterexample: with one Expense transaction of 50 and one
Buy of 1 share at 100, the cash balance returned by
`PortfolioCalculator.compute_metrics` is `50` (the raw amount, added),
while the derivation stated by the claim (income adds, expense
subtracts, buys subtract, sells add) yields `-150`. -/
theorem C3_cash_balance_counterexample :
    (compute_metrics [⟨"Expense", 50⟩] [⟨"T", "Buy", 1, 100⟩] []).cash_balance = 50 ∧
    claimed_cash_balance [⟨"Expense", 50⟩] [⟨"T", "Buy", 1, 100⟩] = -150 ∧
    (compute_metrics [⟨"Expense", 50⟩] [⟨"T", "Buy", 1, 100⟩] []).cash_balance
      ≠ claimed_cash_balance [⟨"Expense", 50⟩] [⟨"T", "Buy", 1, 100⟩] := by
  refine ⟨?_, ?_, ?_⟩ <;>
    norm_num +decide [compute_metrics, claimed_cash_balance, List.filter_cons]

/-- Claim C3 as amended: the cash balance of
`PortfolioCalculator.compute_metrics` (the `computeMetrics` the app
calls) is the plain sum of every cash-transaction amount — independent of
the trades and of the transaction types, so expense amounts add rather
than subtract and buy/sell flows never enter it; the claimed
income − expense − buys + sells derivation is computed only by the legacy
`PortfolioAnalyzer.compute_metrics` of portfolio.py. -/
theorem C3_cash_balance_amended (txs : List Txn) (invs invs' : List Trade)
    (pf pf' : List Summary) :
    (compute_metrics txs invs pf).cash_balance = (txs.map (·.amount)).sum ∧
    (compute_metrics txs invs pf).cash_balance = (compute_metrics txs invs' pf').cash_balance ∧
    analyzer_cash_balance txs invs = claimed_cash_balance txs invs := by
  refine ⟨rfl, rfl, ?_⟩
  simp [analyzer_cash_balance, claimed_cash_balance, buy_value, sell_value,
    buysOf, sellsOf, TRANSACTION_TYPE_INCOME, TRANSACTION_TYPE_EXPENSE,
    TRADE_TYPE_BUY, TRADE_TYPE_SELL]

/-! ## Claim C10 -/

/-- Claim C10: every summary row reports Total, Sold and Net Shares
through `pyInt` — Python's `int()`, truncation toward zero — while the
average cost, the current value and the P&L fields (unrealized P&L, its
percentage, and realized P&L, in both the open and the closed branch) are
computed from the untruncated rational share sums, never from the
truncated integers. -/
theorem C10_share_truncation (tk : String) (g : List Trade)
    (prices : String → Option ℚ) :
    (aggregateTicker tk g prices).totalShares = pyInt (buy_shares g) ∧
    (aggregateTicker tk g prices).soldShares = pyInt (sell_shares g) ∧
    (aggregateTicker tk g prices).netShares = pyInt (buy_shares g - sell_shares g) ∧
    (0 < buy_shares g →
      (aggregateTicker tk g prices).avgCost = buy_value g / buy_shares g) ∧
    (¬ (buy_shares g - sell_shares g = 0 ∧ 0 < buy_shares g) →
      (aggregateTicker tk g prices).currentValue
        = (buy_shares g - sell_shares g) * (aggregateTicker tk g prices).currentPrice) ∧
    (¬ (buy_shares g - sell_shares g = 0 ∧ 0 < buy_shares g) →
      (aggregateTicker tk g prices).unrealizedPnl
        = (buy_shares g - sell_shares g) * (aggregateTicker tk g prices).currentPrice
          - (buy_shares g - sell_shares g) * (aggregateTicker tk g prices).avgCost) ∧
    (¬ (buy_shares g - sell_shares g = 0 ∧ 0 < buy_shares g) →
      (aggregateTicker tk g prices).unrealizedPct
        = if 0 < (buy_shares g - sell_shares g) * (aggregateTicker tk g prices).avgCost then
            ((buy_shares g - sell_shares g) * (aggregateTicker tk g prices).currentPrice
              - (buy_shares g - sell_shares g) * (aggregateTicker tk g prices).avgCost)
            / ((buy_shares g - sell_shares g) * (aggregateTicker tk g prices).avgCost) * 100
          else 0) ∧
    (¬ (buy_shares g - sell_shares g = 0 ∧ 0 < buy_shares g) → 0 < sell_shares g →
      (aggregateTicker tk g prices).realizedPnl
        = sell_value g - sell_shares g * (aggregateTicker tk g prices).avgCost) ∧
    ((buy_shares g - sell_shares g = 0 ∧ 0 < buy_shares g) →
      (aggregateTicker tk g prices).realizedPnl = sell_value g - buy_value g) := by
  refine ⟨rfl, rfl, rfl, ?_, ?_, ?_, ?_, ?_, ?_⟩
  · intro hb
    simp only [aggregateTicker]
    rw [if_pos hb]
  · intro hopen
    simp only [aggregateTicker]
    rw [if_neg hopen]
  · intro hopen
    simp only [aggregateTicker]
    rw [if_neg hopen]
  · intro hopen
    simp only [aggregateTicker]
    rw [if_neg hopen]
  · intro hopen hs
    simp only [aggregateTicker]
    rw [if_neg hopen, if_pos hs]
  · intro hc
    simp only [aggregateTicker]
    rw [if_pos hc]

/-- Witness for C10: buying 5/2 shares at 4 and selling 5 at 2 reports
Total Shares `int(2.5) = 2` and Net Shares `int(-2.5) = -2` (truncation
toward zero, not flooring to −3), while the average cost is
`10 / 2.5 = 4` and the realized P&L is `10 − 5 × 4 = −10`, both computed
from the untruncated sums. -/
theorem C10_share_truncation_witness :
    buy_shares [⟨"T", "Buy", 5/2, 4⟩, ⟨"T", "Sell", 5, 2⟩] = 5/2 ∧
    (aggregateTicker "T" [⟨"T", "Buy", 5/2, 4⟩, ⟨"T", "Sell", 5, 2⟩]
        (fun _ => none)).totalShares = 2 ∧
    (aggregateTicker "T" [⟨"T", "Buy", 5/2, 4⟩, ⟨"T", "Sell", 5, 2⟩]
        (fun _ => none)).netShares = -2 ∧
    (aggregateTicker "T" [⟨"T", "Buy", 5/2, 4⟩, ⟨"T", "Sell", 5, 2⟩]
        (fun _ => none)).avgCost = 4 ∧
    (aggregateTicker "T" [⟨"T", "Buy", 5/2, 4⟩, ⟨"T", "Sell", 5, 2⟩]
        (fun _ => none)).realizedPnl = -10 := by
  have h := C10_share_truncation "T" [⟨"T", "Buy", 5/2, 4⟩, ⟨"T", "Sell", 5, 2⟩]
    (fun _ => none)
  have hbs : buy_shares [⟨"T", "Buy", 5/2, 4⟩, ⟨"T", "Sell", 5, 2⟩] = 5/2 := by
    norm_num +decide [buy_shares, buysOf, TRADE_TYPE_BUY, List.filter_cons]
  have hss : sell_shares [⟨"T", "Buy", 5/2, 4⟩, ⟨"T", "Sell", 5, 2⟩] = 5 := by
    norm_num +decide [sell_shares, sellsOf, TRADE_TYPE_SELL, List.filter_cons]
  have hbv : buy_value [⟨"T", "Buy", 5/2, 4⟩, ⟨"T", "Sell", 5, 2⟩] = 10 := by
    norm_num +decide [buy_value, buysOf, TRADE_TYPE_BUY, List.filter_cons]
  have hsv : sell_value [⟨"T", "Buy", 5/2, 4⟩, ⟨"T", "Sell", 5, 2⟩] = 10 := by
    norm_num +decide [sell_value, sellsOf, TRADE_TYPE_SELL, List.filter_cons]
  have hopen : ¬ (buy_shares [⟨"T", "Buy", 5/2, 4⟩, ⟨"T", "Sell", 5, 2⟩]
      - sell_shares [⟨"T", "Buy", 5/2, 4⟩, ⟨"T", "Sell", 5, 2⟩] = 0 ∧
      0 < buy_shares [⟨"T", "Buy", 5/2, 4⟩, ⟨"T", "Sell", 5, 2⟩]) := by
    rw [hbs, hss]
    norm_num
  have havg : (aggregateTicker "T" [⟨"T", "Buy", 5/2, 4⟩, ⟨"T", "Sell", 5, 2⟩]
      (fun _ => none)).avgCost = 4 := by
    rw [h.2.2.2.1 (by rw [hbs]; norm_num), hbs, hbv]
    norm_num
  refine ⟨hbs, ?_, ?_, havg, ?_⟩
  · rw [h.1, hbs]
    norm_num [pyInt, Int.floor_eq_iff]
  · rw [h.2.2.1, hbs, hss]
    norm_num [pyInt, Int.ceil_eq_iff]
  · rw [h.2.2.2.2.2.2.2.1 hopen (by rw [hss]; norm_num), hsv, hss, havg]
    norm_num

/-! ## Claim C8 -/

-- `split('|')[0]` keeps everything before the first pipe; a pipe-free
-- chunk passes `takeWhile` unchanged.
theorem takeWhile_append_pipe (l t : List Char) (h : '|' ∉ l) :
    (l ++ '|' :: t).takeWhile (fun c => decide (c ≠ '|')) = l := by
  induction l with
  | nil => simp [List.takeWhile_cons]
  | cons a as ih =>
    have ha : a ≠ '|' := by
      intro e
      exact h (by simp [e])
    have h' : '|' ∉ as := fun hm => h (List.mem_cons_of_mem _ hm)
    rw [List.cons_append, List.takeWhile_cons, if_pos (by simpa using ha), ih h']

-- Stripping is unaffected by one extra trailing blank.
theorem pyStripChars_concat_space (l : List Char) :
    pyStripChars (l ++ [' ']) = pyStripChars l := by
  unfold pyStripChars
  rw [List.reverse_append]
  simp +decide [List.dropWhile_cons]

-- Symbol extraction undoes `"SYMBOL | ..."` formatting for a clean
-- (non-empty, pipe-free, stripped) symbol.
theorem extract_after_format (s rest : String) (h1 : s ≠ "")
    (h2 : '|' ∉ s.data) (h3 : pyStripChars s.data = s.data) :
    get_ticker_from_option (s ++ " | " ++ rest) = some s := by
  have hdat : (s ++ " | " ++ rest).data = s.data ++ (' ' :: '|' :: (' ' :: rest.data)) := by
    simp only [String.data_append, List.append_assoc, List.cons_append, List.nil_append]
  have hmem : '|' ∈ (s ++ " | " ++ rest).data := by
    rw [hdat]; simp
  have hd : s.data ≠ [] := by
    intro h0
    exact h1 (String.ext (h0.trans rfl))
  have htw : (s ++ " | " ++ rest).data.takeWhile (fun c => decide (c ≠ '|'))
      = s.data ++ [' '] := by
    rw [hdat]
    have hsh : s.data ++ (' ' :: '|' :: (' ' :: rest.data))
        = (s.data ++ [' ']) ++ '|' :: (' ' :: rest.data) := by simp
    rw [hsh]
    apply takeWhile_append_pipe
    intro hm
    rcases List.mem_append.mp hm with hx | hx
    · exact h2 hx
    · simp at hx
  unfold get_ticker_from_option
  rw [if_pos hmem, htw, pyStripChars_concat_space, h3, if_neg hd]

/-- Claim C8 counterexample: the parser accepts the data line `||X|Y`
(symbol and name both empty after stripping), and for that directory
entry the round trip fails: `get_ticker_from_option` returns `None`, not
the entry's (empty) symbol. -/
theorem C8_roundtrip_counterexample :
    parse_nasdaq_file "Header\n||X|Y\nSummary" true = [⟨"", "", false, "NASDAQ"⟩] ∧
    ¬ get_ticker_from_option (optionDisplay ⟨"", "", false, "NASDAQ"⟩) = some "" := by
  constructor <;> decide

/-- Claim C8 as amended: for every directory entry whose symbol is
non-empty, contains no pipe and carries no surrounding whitespace — the
shape `_parse_nasdaq_file` guarantees for every non-empty symbol field —
extracting the symbol from the formatted option string returns exactly
that entry's symbol. -/
theorem C8_roundtrip_amended (r : TickerRec) (h1 : r.symbol ≠ "")
    (h2 : '|' ∉ r.symbol.data) (h3 : pyStrip r.symbol = r.symbol) :
    get_ticker_from_option (optionDisplay r) = some r.symbol := by
  have h3' : pyStripChars r.symbol.data = r.symbol.data := congrArg String.data h3
  have hopt : optionDisplay r
      = r.symbol ++ " | " ++ (r.name ++ " (" ++ (if r.is_etf then "ETF" else "Stock") ++ ")") := by
    apply String.ext
    simp [optionDisplay, String.data_append, List.append_assoc]
  rw [hopt]
  exact extract_after_format r.symbol _ h1 h2 h3'

/-- Witness for C8 (amended) at a concrete entry. -/
theorem C8_roundtrip_amended_witness :
    get_ticker_from_option (optionDisplay ⟨"AAPL", "Apple Inc.", false, "NASDAQ"⟩)
      = some "AAPL" :=
  C8_roundtrip_amended ⟨"AAPL", "Apple Inc.", false, "NASDAQ"⟩
    (by decide) (by decide) (by decide)

/-! ## Claim C6 -/

/-- Claim C6: for every query and every limit ≥ 1, `search_tickers`
returns a non-empty list; the empty query returns exactly
`[DEFAULT_TICKER]`, and when neither the directory path (no extracted
symbols) nor the embedded fallback list (no prefix and no substring
matches) produces anything, the result is again `[DEFAULT_TICKER]`. -/
theorem C6_search_never_empty (dir : List TickerRec) (query : String) (limit : Nat)
    (hl : 1 ≤ limit) :
    search_tickers dir query limit ≠ [] ∧
    (query = "" → search_tickers dir query limit = [DEFAULT_TICKER]) ∧
    (((get_ticker_options dir query).filterMap get_ticker_from_option = [] ∧
        US_STOCK_TICKERS.filter (fun t => strStartsWith t (pyStrip (pyUpper query))) = [] ∧
        US_STOCK_TICKERS.filter (fun t => containsSub (pyStrip (pyUpper query)) t) = []) →
      search_tickers dir query limit = [DEFAULT_TICKER]) := by
  by_cases hq : query = ""
  · refine ⟨?_, fun _ => ?_, fun _ => ?_⟩ <;> simp [search_tickers, hq]
  · simp only [search_tickers, if_neg hq]
    by_cases hc : 0 < dir.length ∧
        (get_ticker_options dir query).filterMap get_ticker_from_option ≠ []
    · rw [if_pos hc]
      refine ⟨?_, fun h => absurd h hq, fun h => absurd h.1 hc.2⟩
      intro hnil
      rcases List.take_eq_nil_iff.mp hnil with h0 | h0
      · omega
      · exact hc.2 h0
    · rw [if_neg hc]
      by_cases hpm : sortListBy strLe
          (US_STOCK_TICKERS.filter (fun t => strStartsWith t (pyStrip (pyUpper query)))) = []
      · rw [if_pos hpm]
        by_cases hcm : sortListBy strLe
            (US_STOCK_TICKERS.filter (fun t => containsSub (pyStrip (pyUpper query)) t)) = []
        · rw [if_neg (by simpa using hcm)]
          exact ⟨by simp [DEFAULT_TICKER], fun h => absurd h hq, fun _ => rfl⟩
        · rw [if_pos (by simpa using hcm)]
          refine ⟨?_, fun h => absurd h hq, fun h => ?_⟩
          · intro hnil
            rcases List.take_eq_nil_iff.mp hnil with h0 | h0
            · omega
            · exact hcm h0
          · exact absurd ((sortListBy_eq_nil_iff _ _).mpr h.2.2) hcm
      · rw [if_neg hpm]
        rw [if_pos (by simpa using hpm)]
        refine ⟨?_, fun h => absurd h hq, fun h => ?_⟩
        · intro hnil
          rcases List.take_eq_nil_iff.mp hnil with h0 | h0
          · omega
          · exact hpm h0
        · exact absurd ((sortListBy_eq_nil_iff _ _).mpr h.2.1) hpm

/-- Witness for C6 at concrete inputs: the empty query on an empty
directory with limit 1 yields exactly the default ticker; a matching
query yields a non-empty result. -/
theorem C6_search_never_empty_witness :
    search_tickers [] "" 1 = [DEFAULT_TICKER] ∧
    search_tickers [] "ZZZNOTREAL" 1 = [DEFAULT_TICKER] ∧
    search_tickers [] "NVDA" 3 ≠ [] :=
  ⟨(C6_search_never_empty [] "" 1 (by decide)).2.1 rfl,
   (C6_search_never_empty [] "ZZZNOTREAL" 1 (by decide)).2.2 (by decide),
   (C6_search_never_empty [] "NVDA" 3 (by decide)).1⟩

end InVesta
